import Mathlib

/-!
Shallow embedding of the outlet-control script (powestrip.py) of the
smart-home repository, together with theorems settling the frozen claims
about its specification.

JSON objects are modelled by structures whose fields are `Option`-valued:
`none` stands for an absent key (Python's `dict.get` returning `None` /
the supplied default).  Network effects are modelled by passing the
responses the code would receive as explicit inputs; a raised exception
during a request is an explicit constructor of the outcome type, since
the source wraps each request in try/except and maps every exception to
a falsy return.
-/

namespace PowerStrip

/-- Python's `str.lower()`, modelled character-wise (the strings the
script lowercases are ASCII action names and MAC addresses). -/
def strLower (s : String) : String := String.mk (s.data.map Char.toLower)

/-- One entry of an outlet list, as the script reads and writes it:
the four JSON keys touched by the code, each `none` when the key is
absent, plus an opaque list of the remaining key/value pairs, which the
code never touches but carries through. -/
structure Outlet where
  index : Option Int
  name : Option String
  cycle_enabled : Option Bool
  relay_state : Option Bool
  extra : List (String × String)
deriving Repr, DecidableEq

/-- A device record, restricted to the keys the script reads:
`_id`, `mac`, `outlet_overrides` and `outlet_table`. -/
structure Device where
  devId : Option String
  mac : Option String
  outlet_overrides : Option (List Outlet)
  outlet_table : Option (List Outlet)
deriving Repr, DecidableEq

/-- The active outlet list as the source selects it at powestrip.py:76 and
:91 and :170: `device.get("outlet_overrides", device.get("outlet_table", []))`,
i.e. the overrides list whenever the `outlet_overrides` key is present
(even when its value is the empty list), otherwise the base table
(defaulting to the empty list). -/
def activeOutlets (device : Device) : List Outlet :=
  match device.outlet_overrides with
  | some l => l
  | none => device.outlet_table.getD []

/-- The loop of `get_outlet_state` (powestrip.py:77-81): scan for the first
entry whose `index` equals the target and return its `relay_state`
(defaulting to `false` when the key is absent); `none` when no entry
matches. -/
def lookupRelayState : List Outlet → Int → Option Bool
  | [], _ => none
  | o :: rest, outlet_index =>
    if o.index == some outlet_index then some (o.relay_state.getD false)
    else lookupRelayState rest outlet_index

/-- `get_outlet_state` (powestrip.py:74-81). -/
def get_outlet_state (device : Device) (outlet_index : Int) : Option Bool :=
  lookupRelayState (activeOutlets device) outlet_index

/-- The fresh entry appended by `control_outlet` when the index is absent
(powestrip.py:98). -/
def defaultOutlet (outlet_index : Int) (state : Bool) : Outlet :=
  { index := some outlet_index
    name := some ("Outlet " ++ toString outlet_index)
    cycle_enabled := some false
    relay_state := some state
    extra := [] }

/-- The for/else update-or-insert step of `control_outlet`
(powestrip.py:92-98): overwrite the first entry whose `index` equals the
target in place, else append a fresh default entry at the end. -/
def updateOutlets : List Outlet → Int → Bool → List Outlet
  | [], outlet_index, state => [defaultOutlet outlet_index state]
  | o :: rest, outlet_index, state =>
    if o.index == some outlet_index then
      { o with relay_state := some state } :: rest
    else
      o :: updateOutlets rest outlet_index state

/-- The `outlet_overrides` payload `control_outlet` submits
(powestrip.py:86, 91-99): the active outlet list, mutated by the
update-or-insert step, with the desired state `true` exactly when the
lowercased action is `on`. -/
def controlPayload (device : Device) (outlet_index : Int) (action : String) :
    List Outlet :=
  updateOutlets (activeOutlets device) outlet_index (strLower action == "on")

/-- The body of the device-list response as `get_device_info` sees it:
either `response.json()` raises (malformed body), or it parses and
`.get("data", [])` yields a list of device records. -/
inductive StatBody
  | malformed
  | parsed (devices : List Device)
deriving Repr, DecidableEq

/-- The outcome of the GET request `get_device_info` issues
(powestrip.py:50-53): the request itself raises, or a response with a
status code and a body arrives. -/
inductive StatOutcome
  | exception
  | response (status : Nat) (body : StatBody)
deriving Repr, DecidableEq

/-- Whether a device record matches the target hardware address, as the
scan at powestrip.py:62 tests it: `device.get("mac", "").lower() ==
mac.lower()`. -/
def macMatches (device : Device) (mac : String) : Bool :=
  strLower (device.mac.getD "") == strLower mac

/-- `get_device_info` (powestrip.py:47-72): `none` when the request
raises, the status is not 200 or the body is malformed; otherwise the
first device whose hardware address matches case-insensitively, `none`
when no entry matches. -/
def get_device_info (outcome : StatOutcome) (mac : String) : Option Device :=
  match outcome with
  | .exception => none
  | .response status body =>
    if status != 200 then none
    else
      match body with
      | .malformed => none
      | .parsed devices => devices.find? (fun d => macMatches d mac)

/-- The body of the PUT response as `control_outlet` inspects it
(powestrip.py:110): either `response.json()` raises, or it parses and
`.get("meta", {}).get("rc")` yields an optional result code. -/
inductive PutBody
  | malformed
  | parsed (rc : Option String)
deriving Repr, DecidableEq

/-- The outcome of the PUT request `control_outlet` issues
(powestrip.py:102-107). -/
inductive PutOutcome
  | exception
  | response (status : Nat) (body : PutBody)
deriving Repr, DecidableEq

/-- The success/failure result of `control_outlet` (powestrip.py:83-118):
false when the device fetch fails, the PUT raises, parsing the body
raises, the status is not 200 or the result code is not `ok`; true
exactly when the status is 200 and the result code is `ok`.  (When the
status is 200 a malformed body raises inside the try block and the
except clause returns false; when it is not 200 the `and`
short-circuits and the else branch returns false.) -/
def control_outlet (stat : StatOutcome) (mac : String) (put : PutOutcome) :
    Bool :=
  match get_device_info stat mac with
  | none => false
  | some _ =>
    match put with
    | .exception => false
    | .response status body =>
      match body with
      | .malformed => false
      | .parsed rc => status == 200 && rc == some "ok"

/-- `verify_outlet_state` (powestrip.py:120-130), applied to the result
of its device fetch: false when the device could not be retrieved or the
outlet index is absent from the active outlet list, else whether the
observed relay state equals the desired one. -/
def verify_outlet_state (deviceResult : Option Device) (outlet_index : Int)
    (desired_state : Bool) : Bool :=
  match deviceResult with
  | none => false
  | some device =>
    match get_outlet_state device outlet_index with
    | none => false
    | some current_state => current_state == desired_state

/-- Python truthiness of an optional string: `None` and the empty string
are falsy, any other string is truthy. -/
def pyTruthy : Option String → Bool
  | none => false
  | some s => !(s == "")

/-- Python's `a or b` on optional strings (powestrip.py:34): `a` when it
is truthy, else `b`. -/
def pyOrElse (a b : Option String) : Option String :=
  if pyTruthy a then a else b

/-- The login response as `authenticate_controller` inspects it: the
status code, `response.headers.get("X-CSRF-Token")` and
`session.cookies.get("csrf_token")`. -/
structure LoginResponse where
  status : Nat
  headerToken : Option String
  cookieToken : Option String
deriving Repr, DecidableEq

/-- The outcome of the login POST (powestrip.py:26-30): the request
raises, or a response arrives. -/
inductive LoginOutcome
  | exception
  | response (r : LoginResponse)
deriving Repr, DecidableEq

/-- The session object, restricted to what the script sets on it: the
`X-CSRF-Token` header attached to subsequent requests, `none` when it
was never set. -/
structure Session where
  csrfHeader : Option String
deriving Repr, DecidableEq

/-- `authenticate_controller` (powestrip.py:19-45): `none` when the
request raises or the status is not 200; otherwise a session, carrying
the token `headers.get("X-CSRF-Token") or cookies.get("csrf_token")`
when that value is truthy, and no token header otherwise. -/
def authenticate_controller (outcome : LoginOutcome) : Option Session :=
  match outcome with
  | .exception => none
  | .response r =>
    if r.status == 200 then
      let csrf_token := pyOrElse r.headerToken r.cookieToken
      if pyTruthy csrf_token then some { csrfHeader := csrf_token }
      else some { csrfHeader := none }
    else none

/-- The externally configured values `main` uses (env_vars.py). -/
structure Config where
  deviceMac : String
  deviceId : String
  site : String
deriving Repr, DecidableEq

/-- One observable event of a run of `main`: an API request (with the
arguments the script passes) or the log line recording the extracted
device identifier.  `verifyCall` stands for an invocation of
`verify_outlet_state`; the constructor exists so that its absence from
every trace is a statement about the code, not about the event type. -/
inductive Event
  | login
  | statDevice (site : String)
  | logDeviceId (id : String)
  | putDevice (site : String) (deviceId : String) (payload : List Outlet)
  | verifyCall
deriving Repr, DecidableEq

/-- The requests `control_outlet` issues (powestrip.py:87, 101-107): its
own device fetch, then — when that fetch succeeds — the PUT to
`/rest/device/{device_id}` with the mutated outlet list as payload. -/
def controlOutletEvents (config : Config) (device_id : String)
    (site : String) (outlet_index : Int) (action : String)
    (stat : StatOutcome) : List Event :=
  match get_device_info stat config.deviceMac with
  | none => [Event.statDevice site]
  | some device =>
    [Event.statDevice site,
     Event.putDevice site device_id (controlPayload device outlet_index action)]

/-- The trace of a run of `main` (powestrip.py:132-184) with the parsed
CLI arguments: authenticate, resolve the device, log the extracted
`_id` (defaulting to the configured device id), check the outlet index
is present, then call `control_outlet` with the configured `DEVICE_ID`
— each stage ending the run on failure. -/
def mainEvents (config : Config) (argIndex : Int) (argAction : String)
    (login : LoginOutcome) (stat1 stat2 : StatOutcome) : List Event :=
  match authenticate_controller login with
  | none => [Event.login]
  | some _ =>
    match get_device_info stat1 config.deviceMac with
    | none => [Event.login, Event.statDevice config.site]
    | some device =>
      if (activeOutlets device).any (fun o => o.index == some argIndex) then
        [Event.login, Event.statDevice config.site,
         Event.logDeviceId (device.devId.getD config.deviceId)] ++
        controlOutletEvents config config.deviceId config.site argIndex
          argAction stat2
      else
        [Event.login, Event.statDevice config.site,
         Event.logDeviceId (device.devId.getD config.deviceId)]

/-! ## Spec-side definitions for comparison

Written from the specification's words, to be compared with the
definitions embedded from the source. -/

/-- The selection rule claim C1 states, written from the spec's words:
the overrides list if it is non-empty, otherwise the base table list; in
particular a present-but-empty overrides list falls back to the base
table. -/
def selectNonEmptyContract (device : Device) : List Outlet :=
  match device.outlet_overrides with
  | some l => if l.isEmpty then device.outlet_table.getD [] else l
  | none => device.outlet_table.getD []

/-- The selection rule amended to what the source does: the overrides
list whenever the `outlet_overrides` key is present, even when its value
is the empty list; the base table (empty when also absent) only when the
key itself is absent. -/
def selectByPresence (device : Device) : List Outlet :=
  match device.outlet_overrides with
  | some l => l
  | none =>
    match device.outlet_table with
    | some t => t
    | none => []

/-- The resolver contract of claim C5, written from the spec's words: on
a parsed 200 response, the first entry of the device list whose hardware
address matches case-insensitively (the head of the filtered list);
`none` (the `DeviceNotFound` outcome) when no entry matches, the status
is not 200, the body is malformed, or the request fails. -/
def resolverContract (outcome : StatOutcome) (mac : String) : Option Device :=
  match outcome with
  | .exception => none
  | .response status body =>
    match body with
    | .malformed => none
    | .parsed devices =>
      if status = 200 then (devices.filter (fun d => macMatches d mac)).head?
      else none

/-- How many entries of an outlet list carry a given index: the measure
in which the at-most-one-outlet-per-index invariant is stated. -/
def countIndex (l : List Outlet) (i : Int) : Nat :=
  (l.filter (fun o => o.index == some i)).length

/-! ## Concrete records used by counterexamples and witnesses -/

/-- An outlet entry with index 0, relay on. -/
def outletZeroOn : Outlet :=
  { index := some 0, name := some "Outlet 0", cycle_enabled := some false
    relay_state := some true, extra := [] }

/-- A device whose `outlet_overrides` key is present with an empty list
while its `outlet_table` holds an outlet with index 0 switched on. -/
def emptyOverridesDevice : Device :=
  { devId := none, mac := some "aa:bb:cc:dd:ee:ff"
    outlet_overrides := some []
    outlet_table := some [outletZeroOn] }

/-- A three-outlet list with indices 1, 2 and 3. -/
def threeOutlets : List Outlet :=
  [{ index := some 1, name := some "Outlet 1", cycle_enabled := some false
     relay_state := some true, extra := [] },
   { index := some 2, name := some "Outlet 2", cycle_enabled := some false
     relay_state := some false, extra := [] },
   { index := some 3, name := some "Outlet 3", cycle_enabled := some true
     relay_state := some true, extra := [] }]

/-! ## Helper lemmas -/

/-- The relay-state scan finds nothing exactly when no entry carries the
target index. -/
theorem lookupRelayState_eq_none_iff (l : List Outlet) (outlet_index : Int) :
    lookupRelayState l outlet_index = none ↔
      ∀ o ∈ l, o.index ≠ some outlet_index := by
  induction l with
  | nil => simp [lookupRelayState]
  | cons o rest ih =>
    by_cases h : o.index == some outlet_index
    · simp [lookupRelayState, h, beq_iff_eq.mp h]
    · simp only [lookupRelayState, h, if_neg, Bool.false_eq_true,
        not_false_eq_true, List.mem_cons, ih]
      constructor
      · rintro hrest o' (rfl | ho')
        · exact fun hc => by simp [hc] at h
        · exact hrest o' ho'
      · intro hall o' ho'
        exact hall o' (Or.inr ho')

/-- Finding the first match is the same as keeping all matches and
taking the head. -/
theorem find?_eq_head?_filter (p : Device → Bool) (l : List Device) :
    l.find? p = (l.filter p).head? := by
  induction l with
  | nil => rfl
  | cons d rest ih =>
    cases h : p d with
    | true => rw [List.find?_cons_of_pos _ h]; simp [List.filter_cons, h]
    | false =>
      rw [List.find?_cons_of_neg _ (by simp [h]), ih]
      simp [List.filter_cons, h]

/-! ## The claims -/

/-- Claim C1, counterexample: on a device whose `outlet_overrides` key is
present with the empty list and whose `outlet_table` holds an outlet with
index 0 switched on, the source selects the empty overrides list — the
state reader returns `none` — while the claimed non-emptiness rule would
select the base table and read the outlet as on. -/
theorem activeOutlets_nonEmptyRule_counterexample :
    activeOutlets emptyOverridesDevice ≠
        selectNonEmptyContract emptyOverridesDevice ∧
      get_outlet_state emptyOverridesDevice 0 = none ∧
      lookupRelayState (selectNonEmptyContract emptyOverridesDevice) 0 =
        some true := by
  refine ⟨?_, rfl, rfl⟩
  decide

/-- Claim C1, amended: both the Outlet Mutator's payload computation and
the outlet-state reader select the active outlet list by key presence —
the overrides list whenever the `outlet_overrides` key is present (even
when empty), otherwise the base table list. -/
theorem activeList_selected_by_presence (device : Device) (outlet_index : Int)
    (action : String) :
    get_outlet_state device outlet_index =
        lookupRelayState (selectByPresence device) outlet_index ∧
      controlPayload device outlet_index action =
        updateOutlets (selectByPresence device) outlet_index
          (strLower action == "on") := by
  have hsel : activeOutlets device = selectByPresence device := by
    unfold activeOutlets selectByPresence
    cases device.outlet_overrides with
    | some l => rfl
    | none => cases device.outlet_table with
      | some t => rfl
      | none => rfl
  exact ⟨by rw [get_outlet_state, hsel], by rw [controlPayload, hsel]⟩

/-- Claim C2: when no entry of the list carries the target index, the
update-or-insert step appends exactly the default entry — name
`Outlet <index>`, cycling disabled, relay state as desired — so the
payload is the original list followed by that one entry, its length
grows by one, and every pre-existing entry is unchanged. -/
theorem updateOutlets_absent_appends (l : List Outlet) (outlet_index : Int)
    (state : Bool) (h : ∀ o ∈ l, o.index ≠ some outlet_index) :
    updateOutlets l outlet_index state =
        l ++ [{ index := some outlet_index
                name := some ("Outlet " ++ toString outlet_index)
                cycle_enabled := some false
                relay_state := some state
                extra := [] }] ∧
      (updateOutlets l outlet_index state).length = l.length + 1 := by
  have happ : updateOutlets l outlet_index state =
      l ++ [defaultOutlet outlet_index state] := by
    induction l with
    | nil => rfl
    | cons o rest ih =>
      have ho : (o.index == some outlet_index) = false := by
        simpa using h o (List.mem_cons_self o rest)
      simp only [updateOutlets, ho, Bool.false_eq_true, if_neg,
        not_false_eq_true, List.cons_append, List.cons.injEq, true_and]
      exact ih fun o' ho' => h o' (List.mem_cons_of_mem o ho')
  refine ⟨happ, ?_⟩
  rw [happ]
  simp [defaultOutlet]

/-- Claim C2, witness: index 5 is absent from the three-outlet list, and
the mutated payload is that list plus the default entry for index 5
switched on; the length grows from 3 to 4. -/
theorem updateOutlets_absent_appends_witness :
    updateOutlets threeOutlets 5 true =
        threeOutlets ++ [{ index := some 5
                           name := some ("Outlet " ++ toString (5 : Int))
                           cycle_enabled := some false
                           relay_state := some true
                           extra := [] }] ∧
      (updateOutlets threeOutlets 5 true).length = threeOutlets.length + 1 :=
  updateOutlets_absent_appends threeOutlets 5 true (by decide)

/-- Claim C4: the update-or-insert step is idempotent — applying it twice
with the same index and desired state yields the same list as applying
it once. -/
theorem updateOutlets_idempotent (l : List Outlet) (outlet_index : Int)
    (state : Bool) :
    updateOutlets (updateOutlets l outlet_index state) outlet_index state =
      updateOutlets l outlet_index state := by
  induction l with
  | nil => simp [updateOutlets, defaultOutlet]
  | cons o rest ih =>
    by_cases h : o.index == some outlet_index
    · simp [updateOutlets, h]
    · simp [updateOutlets, h, ih]

/-- Claim C3: the Outlet Mutator succeeds exactly when the device fetch
succeeded and the update response arrived with HTTP status 200 and a
parsed body whose embedded result code is `ok`; every other combination
— non-200 status, non-`ok` or missing result code, malformed body,
failed device fetch, or a raised exception — yields failure. -/
theorem control_outlet_success_iff (stat : StatOutcome) (mac : String)
    (put : PutOutcome) :
    control_outlet stat mac put = true ↔
      (get_device_info stat mac).isSome = true ∧
        put = PutOutcome.response 200 (PutBody.parsed (some "ok")) := by
  unfold control_outlet
  cases hdev : get_device_info stat mac with
  | none => simp
  | some device =>
    cases put with
    | exception => simp
    | response status body =>
      cases body with
      | malformed => simp
      | parsed rc =>
        simp only [Option.isSome_some, true_and, PutOutcome.response.injEq,
          PutBody.parsed.injEq, Bool.and_eq_true, beq_iff_eq]

/-- Claim C5: the Device Resolver agrees everywhere with the contract
written from the spec — on a parsed 200 response it returns the first
entry whose hardware address matches case-insensitively, and it returns
`none` when no entry matches, the status is not 200, the body is
malformed JSON, or the request raises. -/
theorem get_device_info_meets_contract (outcome : StatOutcome) (mac : String) :
    get_device_info outcome mac = resolverContract outcome mac := by
  cases outcome with
  | exception => rfl
  | response status body =>
    cases body with
    | malformed =>
      simp only [get_device_info, resolverContract]
      split <;> rfl
    | parsed devices =>
      simp only [get_device_info, resolverContract]
      by_cases h : status = 200
      · subst h
        rw [if_neg (by decide), if_pos rfl]
        exact find?_eq_head?_filter _ devices
      · rw [if_pos (show (status != 200) = true by simp [h]), if_neg h]

/-- Claim C6: the Verifier is a total function returning a boolean (the
embedding of a procedure that catches nothing because nothing in it
raises): it returns false when the device could not be retrieved and
false when no entry of the active outlet list carries the target index;
when the outlet is found it returns exactly whether the observed relay
state equals the expected one. -/
theorem verify_outlet_state_spec (deviceResult : Option Device)
    (outlet_index : Int) (desired_state : Bool) :
    (deviceResult = none →
        verify_outlet_state deviceResult outlet_index desired_state = false) ∧
      (∀ device, deviceResult = some device →
        ((∀ o ∈ activeOutlets device, o.index ≠ some outlet_index) →
            verify_outlet_state deviceResult outlet_index desired_state =
              false) ∧
          (∀ observed, get_outlet_state device outlet_index = some observed →
            verify_outlet_state deviceResult outlet_index desired_state =
              (observed == desired_state))) := by
  have hred : ∀ device : Device,
      verify_outlet_state (some device) outlet_index desired_state =
        match get_outlet_state device outlet_index with
        | none => false
        | some current_state => current_state == desired_state :=
    fun device => rfl
  refine ⟨fun h => by rw [h]; rfl, fun device hdev => ⟨fun habsent => ?_,
    fun observed hobs => ?_⟩⟩
  · have hnone : get_outlet_state device outlet_index = none :=
      (lookupRelayState_eq_none_iff (activeOutlets device) outlet_index).mpr
        habsent
    rw [hdev, hred device, hnone]
  · rw [hdev, hred device, hobs]

/-- Claim C6, witness: on a concrete device whose overrides list holds
outlet 0 switched on, verification against `none` (device not
retrieved) fails, verification for the absent index 7 fails, and
verification that outlet 0 is on succeeds. -/
theorem verify_outlet_state_spec_witness :
    verify_outlet_state none 0 true = false ∧
      verify_outlet_state
        (some { devId := none, mac := none,
                outlet_overrides := some [outletZeroOn],
                outlet_table := none }) 7 true = false ∧
      verify_outlet_state
        (some { devId := none, mac := none,
                outlet_overrides := some [outletZeroOn],
                outlet_table := none }) 0 true = (true == true) := by
  refine ⟨(verify_outlet_state_spec none 0 true).1 rfl, ?_, ?_⟩
  · exact ((verify_outlet_state_spec _ 7 true).2 _ rfl).1 (by decide)
  · exact ((verify_outlet_state_spec _ 0 true).2 _ rfl).2 true rfl

/-- Claim C7: on a 200 login response the Authenticator returns a
session; when the `X-CSRF-Token` response header carries a non-empty
token the session's subsequent request headers carry it, and when the
header is absent or empty but the `csrf_token` cookie carries a
non-empty token the session carries that one; an exception during the
request (network failure or a response the HTTP client cannot deliver)
and any non-200 status both yield `none`. -/
theorem authenticate_controller_spec (outcome : LoginOutcome) :
    (outcome = LoginOutcome.exception →
        authenticate_controller outcome = none) ∧
      (∀ r, outcome = LoginOutcome.response r →
        (r.status ≠ 200 → authenticate_controller outcome = none) ∧
          (r.status = 200 →
            (∀ t, r.headerToken = some t → t ≠ "" →
              authenticate_controller outcome =
                some { csrfHeader := some t }) ∧
              (pyTruthy r.headerToken = false →
                ∀ t, r.cookieToken = some t → t ≠ "" →
                  authenticate_controller outcome =
                    some { csrfHeader := some t }))) := by
  refine ⟨fun h => by rw [h]; rfl, fun r hr => ⟨fun hne => ?_,
    fun h200 => ⟨fun t ht htne => ?_, fun hfalse t ht htne => ?_⟩⟩⟩
  · rw [hr]
    unfold authenticate_controller
    simp [hne]
  · have htruthy : pyTruthy r.headerToken = true := by
      rw [ht]; simpa [pyTruthy] using htne
    have hor : pyOrElse r.headerToken r.cookieToken = some t := by
      rw [pyOrElse, if_pos htruthy, ht]
    rw [hr]
    simp only [authenticate_controller]
    rw [if_pos (show (r.status == 200) = true by simp [h200]), hor,
      if_pos (show pyTruthy (some t) = true by simpa [pyTruthy] using htne)]
  · have hor : pyOrElse r.headerToken r.cookieToken = some t := by
      rw [pyOrElse, hfalse, ht]
      simp
    rw [hr]
    simp only [authenticate_controller]
    rw [if_pos (show (r.status == 200) = true by simp [h200]), hor,
      if_pos (show pyTruthy (some t) = true by simpa [pyTruthy] using htne)]

/-- Claim C7, witness: a 200 response whose header carries the token
`tok` yields a session carrying `tok`; a 200 response with no header
token and cookie token `ck` yields a session carrying `ck`; a 401
response and a raised request both yield `none`. -/
theorem authenticate_controller_spec_witness :
    authenticate_controller
        (LoginOutcome.response
          { status := 200, headerToken := some "tok", cookieToken := none }) =
      some { csrfHeader := some "tok" } ∧
      authenticate_controller
          (LoginOutcome.response
            { status := 200, headerToken := none, cookieToken := some "ck" }) =
        some { csrfHeader := some "ck" } ∧
      authenticate_controller
          (LoginOutcome.response
            { status := 401, headerToken := some "tok", cookieToken := none }) =
        none ∧
      authenticate_controller LoginOutcome.exception = none := by
  refine ⟨?_, ?_, ?_, ?_⟩
  · exact (((authenticate_controller_spec _).2 _ rfl).2 rfl).1 "tok" rfl
      (by decide)
  · exact (((authenticate_controller_spec _).2 _ rfl).2 rfl).2 (by decide)
      "ck" rfl (by decide)
  · exact ((authenticate_controller_spec _).2 _ rfl).1 (by decide)
  · exact (authenticate_controller_spec _).1 rfl

/-- The index count of a list with a head entry. -/
theorem countIndex_cons (o : Outlet) (l : List Outlet) (i : Int) :
    countIndex (o :: l) i =
      countIndex l i + (if o.index == some i then 1 else 0) := by
  simp only [countIndex, List.filter_cons]
  split
  · simp [Nat.add_comm]
  · simp

/-- How the update-or-insert step changes the index counts: when some
entry matches the target index every count is unchanged; when none does,
only the target index's count grows, by one. -/
theorem countIndex_updateOutlets (l : List Outlet) (outlet_index : Int)
    (state : Bool) (i : Int) :
    countIndex (updateOutlets l outlet_index state) i =
      if l.any (fun o => o.index == some outlet_index) then countIndex l i
      else countIndex l i + (if outlet_index = i then 1 else 0) := by
  induction l with
  | nil =>
    rw [if_neg (by simp)]
    show countIndex [defaultOutlet outlet_index state] i = _
    rw [countIndex_cons]
    simp [countIndex, defaultOutlet]
  | cons o rest ih =>
    cases h : (o.index == some outlet_index) with
    | true =>
      have hupd : updateOutlets (o :: rest) outlet_index state =
          { o with relay_state := some state } :: rest := by
        simp [updateOutlets, h]
      have hany : (o :: rest).any (fun o => o.index == some outlet_index) =
          true := by
        simp [List.any_cons, h]
      rw [hupd, if_pos hany, countIndex_cons, countIndex_cons]
    | false =>
      have hupd : updateOutlets (o :: rest) outlet_index state =
          o :: updateOutlets rest outlet_index state := by
        simp [updateOutlets, h]
      have hany : (o :: rest).any (fun o => o.index == some outlet_index) =
          rest.any (fun o => o.index == some outlet_index) := by
        simp [List.any_cons, h]
      rw [hupd, countIndex_cons, ih, hany]
      by_cases hrest :
          rest.any (fun o => o.index == some outlet_index) = true
      · rw [if_pos hrest, if_pos hrest, countIndex_cons]
      · rw [if_neg hrest, if_neg hrest, countIndex_cons]
        exact Nat.add_right_comm _ _ _

/-- Claim C8: the at-most-one-entry-per-index invariant is preserved by
the Outlet Mutator's update-or-insert step — if every index occurs at
most once in the list, the same holds of the mutated list. -/
theorem updateOutlets_preserves_index_uniqueness (l : List Outlet)
    (outlet_index : Int) (state : Bool) (h : ∀ j, countIndex l j ≤ 1)
    (i : Int) : countIndex (updateOutlets l outlet_index state) i ≤ 1 := by
  rw [countIndex_updateOutlets]
  by_cases hany : l.any (fun o => o.index == some outlet_index) = true
  · rw [if_pos hany]
    exact h i
  · rw [if_neg hany]
    by_cases hi : outlet_index = i
    · subst hi
      have hnone : ∀ o ∈ l, ¬(o.index == some outlet_index) = true :=
        fun o ho hc => hany (List.any_eq_true.mpr ⟨o, ho, hc⟩)
      have h0 : countIndex l outlet_index = 0 := by
        simp [countIndex, List.filter_eq_nil_iff.mpr hnone]
      simp [h0]
    · rw [if_neg hi]
      simpa using h i

/-- Claim C8, witness: the singleton list holding outlet 0 satisfies the
invariant, and after inserting index 5 the count of index 5 is still at
most one. -/
theorem updateOutlets_preserves_index_uniqueness_witness :
    (∀ j : Int, countIndex [outletZeroOn] j ≤ 1) ∧
      countIndex (updateOutlets [outletZeroOn] 5 true) 5 ≤ 1 :=
  ⟨fun j => by rw [countIndex_cons]; split <;> simp [countIndex],
   updateOutlets_preserves_index_uniqueness [outletZeroOn] 5 true
     (fun j => by rw [countIndex_cons]; split <;> simp [countIndex]) 5⟩

/-- Claim C9: for every action string whose lowercased form is not
`on` — in particular the accepted CLI action `cycle` — the desired
state computed at powestrip.py:86 is `false`, so the Mutator's payload
is identical to the payload for action `off`. -/
theorem nonOn_action_behaves_as_off (action : String) (device : Device)
    (outlet_index : Int) (h : strLower action ≠ "on") :
    (strLower action == "on") = false ∧
      controlPayload device outlet_index action =
        controlPayload device outlet_index "off" := by
  have hb : (strLower action == "on") = false := by
    simp [h]
  refine ⟨hb, ?_⟩
  unfold controlPayload
  rw [hb, show (strLower "off" == "on") = false from by decide]

/-- Claim C9, witness: `cycle` lowercases to something other than `on`,
its desired state is `false`, and its payload on a concrete device
equals the payload of `off`. -/
theorem nonOn_action_behaves_as_off_witness :
    strLower "cycle" ≠ "on" ∧
      (strLower "cycle" == "on") = false ∧
      controlPayload emptyOverridesDevice 2 "cycle" =
        controlPayload emptyOverridesDevice 2 "off" :=
  ⟨by decide,
   nonOn_action_behaves_as_off "cycle" emptyOverridesDevice 2 (by decide)⟩

/-- What the Mutator's own request sequence guarantees: every PUT it
issues addresses exactly the device identifier it was handed, and it
never performs a verification. -/
theorem controlOutletEvents_puts_given_id (config : Config)
    (device_id site : String) (outlet_index : Int) (action : String)
    (stat : StatOutcome) :
    (∀ s i p, Event.putDevice s i p ∈
        controlOutletEvents config device_id site outlet_index action stat →
      i = device_id) ∧
      Event.verifyCall ∉
        controlOutletEvents config device_id site outlet_index action stat := by
  unfold controlOutletEvents
  cases hdev : get_device_info stat config.deviceMac with
  | none => simp
  | some device =>
    refine ⟨fun s i p hmem => ?_, by simp⟩
    rcases List.mem_cons.mp hmem with h1 | h1
    · exact Event.noConfusion h1
    · rcases List.mem_cons.mp h1 with h2 | h2
      · injection h2
      · exact absurd h2 (List.not_mem_nil _)

/-- Claim C10: in every run of `main`, every mutation PUT addresses the
externally configured `DEVICE_ID`; the device identifier extracted from
the resolved record is logged (whenever the run reaches that point) but
never used in a request; and no run ever invokes the Verifier. -/
theorem main_mutates_configured_id_and_never_verifies (config : Config)
    (argIndex : Int) (argAction : String) (login : LoginOutcome)
    (stat1 stat2 : StatOutcome) :
    (∀ site id payload,
        Event.putDevice site id payload ∈
          mainEvents config argIndex argAction login stat1 stat2 →
        id = config.deviceId) ∧
      Event.verifyCall ∉
        mainEvents config argIndex argAction login stat1 stat2 ∧
      (∀ s device, authenticate_controller login = some s →
        get_device_info stat1 config.deviceMac = some device →
        Event.logDeviceId (device.devId.getD config.deviceId) ∈
          mainEvents config argIndex argAction login stat1 stat2) := by
  cases hauth : authenticate_controller login with
  | none =>
    have hmain : mainEvents config argIndex argAction login stat1 stat2 =
        [Event.login] := by
      simp only [mainEvents, hauth]
    rw [hmain]
    refine ⟨fun site id payload hmem => ?_, by simp, fun s device hs _ => ?_⟩
    · simp at hmem
    · exact Option.noConfusion hs
  | some session =>
    cases hdev : get_device_info stat1 config.deviceMac with
    | none =>
      have hmain : mainEvents config argIndex argAction login stat1 stat2 =
          [Event.login, Event.statDevice config.site] := by
        simp only [mainEvents, hauth, hdev]
      rw [hmain]
      refine ⟨fun site id payload hmem => ?_, by simp, fun s device _ hd => ?_⟩
      · simp at hmem
      · exact Option.noConfusion hd
    | some device =>
      have hctrl := controlOutletEvents_puts_given_id config config.deviceId
        config.site argIndex argAction stat2
      by_cases hidx :
          ((activeOutlets device).any fun o => o.index == some argIndex) = true
      · have hmain : mainEvents config argIndex argAction login stat1 stat2 =
            [Event.login, Event.statDevice config.site,
             Event.logDeviceId (device.devId.getD config.deviceId)] ++
            controlOutletEvents config config.deviceId config.site argIndex
              argAction stat2 := by
          simp only [mainEvents, hauth, hdev, hidx, if_true]
        rw [hmain]
        refine ⟨fun site id payload hmem => ?_, ?_, fun s d hs hd => ?_⟩
        · rw [List.mem_append] at hmem
          rcases hmem with h1 | h1
          · simp at h1
          · exact hctrl.1 site id payload h1
        · rw [List.mem_append]
          rintro (h1 | h1)
          · simp at h1
          · exact hctrl.2 h1
        · rw [Option.some.injEq] at hd
          subst hd
          simp
      · have hmain : mainEvents config argIndex argAction login stat1 stat2 =
            [Event.login, Event.statDevice config.site,
             Event.logDeviceId (device.devId.getD config.deviceId)] := by
          simp only [mainEvents, hauth, hdev, if_neg hidx]
        rw [hmain]
        refine ⟨fun site id payload hmem => ?_, by simp, fun s d hs hd => ?_⟩
        · simp at hmem
        · rw [Option.some.injEq] at hd
          subst hd
          simp

end PowerStrip
